import Mathlib

/-!
Verification of the `eva` robot-environment core.

Shallow embedding of `eva/env.py` (class `FrankaEnv`) and `eva/eva.py`
(the `init` bootstrap chain).  Python dicts are modelled as
insertion-ordered association lists with Python `dict` lookup/assignment
semantics; Python scalars are `ℚ`; Python exceptions are `Except`;
stateful methods are explicit state transformers on `EnvState`.
External collaborators (the robot driver, the camera wrapper, the
calibration loader, `change_pose_frame`, `hand_camera_id`) are opaque
parameters, exactly as they are opaque imports in `env.py`.
-/

namespace Eva

/-! ### Python dict operations (insertion-ordered association lists) -/

/-- Lookup in a Python dict modelled as an association list: the binding
of the first matching key (keys are unique in an actual dict). -/
def dictLookup {κ α : Type _} [DecidableEq κ] : List (κ × α) → κ → Option α
  | [], _ => none
  | (k, v) :: rest, k2 => if k2 = k then some v else dictLookup rest k2

/-- Python dict assignment `d[k] = v`: update the existing binding in
place (keeping its position) or append a new binding at the end
(insertion order). -/
def dictInsert {κ α : Type _} [DecidableEq κ] : List (κ × α) → κ → α → List (κ × α)
  | [], k, v => [(k, v)]
  | (k1, v1) :: rest, k, v =>
      if k1 = k then (k, v) :: rest else (k1, v1) :: dictInsert rest k v

/-! ### Substring containment, embedding Python `needle in haystack` -/

/-- Does `hay` start with `needle`?  Helper for `strContains`. -/
def listStartsWith {α : Type _} [DecidableEq α] : List α → List α → Bool
  | [], _ => true
  | _ :: _, [] => false
  | n :: ns, h :: hs => n = h && listStartsWith ns hs

/-- Does `hay` contain `needle` as a contiguous sublist? -/
def listContainsSub {α : Type _} [DecidableEq α] (needle : List α) : List α → Bool
  | [] => needle.isEmpty
  | h :: hs => listStartsWith needle (h :: hs) || listContainsSub needle hs

/-- Python's substring test `needle in hay` on strings. -/
def strContains (needle hay : String) : Bool :=
  listContainsSub needle.data hay.data

/-! ### Error taxonomy

The spec's names for the failures the code raises: `env.py` uses Python
`assert` (an `AssertionError` with a length-diagnostic message for the
dimension check at `env.py:42`, a bare one for the range check at
`env.py:44`, and one for the action-space membership check at
`env.py:122`); the spec calls these `ActionValidationError` (with its two
distinguishable sub-kinds) and `InvalidConfig`. -/

/-- Validation failure of `step` (the two distinguishable assert sites
in `env.py:42` and `env.py:44`). -/
inductive ActionValidationError : Type
  | lengthMismatch (got expected : ℕ)
  | rangeViolation
deriving DecidableEq

/-- Failure of `set_action_space` on a name outside the allowed set
(`env.py:122`). -/
inductive InvalidConfig : Type
  | invalidActionSpace (s : String)
deriving DecidableEq

/-! ### Environment state and collaborator call records -/

/-- The mutable fields of `FrankaEnv` that the verified methods read or
write.  `Pose` is the opaque rigid-body-pose type of calibration entries
and `CT` the opaque per-camera static `camera_type` metadata. -/
structure EnvState (Pose CT : Type) where
  action_space : String
  check_action_range : Bool
  DoF : ℕ
  gripper_action_space : String
  calibration_dict : List (String × Pose)
  camera_type_dict : List (String × CT)

/-- One invocation of the robot-control collaborator, recorded so that
theorems can state which hardware calls a method performs. -/
inductive RobotCall : Type
  | update_gripper (value : ℚ) (velocity : Bool) (blocking : Bool)
  | update_joints (positions : List ℚ) (velocity : Bool) (blocking : Bool)
      (cartesian_noise : Option (List ℚ))
  | update_command (action : List ℚ) (action_space : String)
      (gripper_action_space : String) (blocking : Bool)
deriving DecidableEq

/-- Blocking flag of a recorded robot call. -/
def RobotCall.isBlocking : RobotCall → Bool
  | .update_gripper _ _ b => b
  | .update_joints _ _ b _ => b
  | .update_command _ _ _ b => b

/-- Home joint configuration set in `FrankaEnv.__init__` and never
reassigned (`env.py:18`), in units of π:
`np.array([0, -1/5*np.pi, 0, -4/5*np.pi, 0, 3/5*np.pi, 0.0])`. -/
def reset_joints : List ℚ := [0, -1/5, 0, -4/5, 0, 3/5, 0]

/-- Control rate constant set in `FrankaEnv.__init__` (`env.py:19`). -/
def control_hz : ℕ := 15

/-! ### FrankaEnv methods -/

/-- Embedding of `FrankaEnv.update_robot` (`env.py:60`): forwards the
action to `self._robot.update_command` and returns its `action_info`
verbatim, together with the recorded collaborator call.  Default
arguments mirror the Python signature; in particular `blocking`
defaults to `False`. -/
def update_robot {A : Type} (robot_update_command : List ℚ → String → String → Bool → A)
    (action : List ℚ) (action_space : String := "cartesian_velocity")
    (gripper_action_space : String := "velocity") (blocking : Bool := false) :
    A × List RobotCall :=
  (robot_update_command action action_space gripper_action_space blocking,
   [RobotCall.update_command action action_space gripper_action_space blocking])

/-- Embedding of `FrankaEnv.step` (`env.py:40`).
`assert len(action) == self.DoF` then, when `check_action_range`,
`assert action.max() <= 1 and action.min() >= -1` (numpy max/min over a
nonempty vector, modelled with `List.maximum`/`List.minimum`; the vector
is nonempty whenever the length assert passed and `DoF > 0`).  On
success it forwards via `update_robot` with the current spaces and the
default non-blocking mode and returns the collaborator's `action_info`
unchanged.  On a failed assert no robot call happens. -/
def step {Pose CT A : Type} (env : EnvState Pose CT)
    (robot_update_command : List ℚ → String → String → Bool → A)
    (action : List ℚ) :
    Except ActionValidationError A × List RobotCall :=
  if action.length = env.DoF then
    if env.check_action_range = true ∧
        ¬(action.maximum ≤ ((1 : ℚ) : WithBot ℚ) ∧ ((-1 : ℚ) : WithTop ℚ) ≤ action.minimum) then
      (Except.error ActionValidationError.rangeViolation, [])
    else
      let r := update_robot robot_update_command action env.action_space env.gripper_action_space
      (Except.ok r.1, r.2)
  else
    (Except.error (ActionValidationError.lengthMismatch action.length env.DoF), [])

/-- Embedding of `FrankaEnv.reset` (`env.py:56`): the ordered list of
robot-collaborator calls it performs —
`self._robot.update_gripper(0, velocity=False, blocking=True)` then
`self._robot.update_joints(self.reset_joints, velocity=False,
blocking=True, cartesian_noise=None)`. -/
def reset : List RobotCall :=
  [RobotCall.update_gripper 0 false true,
   RobotCall.update_joints reset_joints false true none]

/-- Robot-state dict: per the data model it carries at least the
`cartesian_position` end-effector pose, opaque beyond that field
(the only key `env.py` reads). -/
structure StateDict (Pose Rest : Type) where
  cartesian_position : Pose
  rest : Rest

/-- Embedding of `FrankaEnv.get_state` (`env.py:75`).  Wall-clock time
is modelled by the clock value `t0` at entry; the collaborator call
`self._robot.get_robot_state()` takes `d` milliseconds, so the second
`time_ms()` reads `t0 + d`.  The two extra keys are assigned into the
collaborator's own `timestamp_dict` (Python dict assignment), leaving
its other entries in place.  Returns the pair together with the clock
after the call. -/
def get_state {Pose Rest : Type}
    (robot_get_robot_state : StateDict Pose Rest × List (String × ℕ))
    (d t0 : ℕ) :
    (StateDict Pose Rest × List (String × ℕ)) × ℕ :=
  let read_start := t0
  let state_dict := robot_get_robot_state.1
  let timestamp_dict := robot_get_robot_state.2
  let t1 := t0 + d
  let timestamp_dict := dictInsert timestamp_dict "read_start" read_start
  let timestamp_dict := dictInsert timestamp_dict "read_end" t1
  ((state_dict, timestamp_dict), t1)

/-- Embedding of `FrankaEnv.get_camera_extrinsics` (`env.py:82`): start
from a (deep) copy of `self.calibration_dict`, then for each key of
`self.calibration_dict` in insertion order, skip it unless
`hand_camera_id` occurs in it as a substring; otherwise save the entry
under `cam_id + "_gripper_offset"` and replace the entry at `cam_id` by
`change_pose_frame(extrinsics[cam_id], state_dict["cartesian_position"])`.
The loop body is split out as `adjust_step`; the inner `none` branches
are unreachable (the copy starts with every calibration key and
assignments never remove keys). -/
def adjust_step {Pose : Type} (hand_camera_id : String)
    (change_pose_frame : Pose → Pose → Pose) (gripper_pose : Pose)
    (extrinsics : List (String × Pose)) (cam_id : String) : List (String × Pose) :=
  if strContains hand_camera_id cam_id = false then
    extrinsics
  else
    match dictLookup extrinsics cam_id with
    | none => extrinsics
    | some v =>
      match dictLookup (dictInsert extrinsics (cam_id ++ "_gripper_offset") v) cam_id with
      | none => dictInsert extrinsics (cam_id ++ "_gripper_offset") v
      | some v1 =>
          dictInsert (dictInsert extrinsics (cam_id ++ "_gripper_offset") v) cam_id
            (change_pose_frame v1 gripper_pose)

/-- The full `get_camera_extrinsics` loop over the calibration keys. -/
def get_camera_extrinsics {Pose : Type} (hand_camera_id : String)
    (change_pose_frame : Pose → Pose → Pose)
    (calibration_dict : List (String × Pose)) (gripper_pose : Pose) :
    List (String × Pose) :=
  (calibration_dict.map Prod.fst).foldl
    (adjust_step hand_camera_id change_pose_frame gripper_pose) calibration_dict

/-- Per-camera intrinsics record returned by `cam.get_intrinsics()`:
`env.py:115` reads only its `"cameraMatrix"` entry. -/
structure IntrInfo (Mat : Type) where
  cameraMatrix : Mat

/-- The intrinsics flattening loop of `get_observation`
(`env.py:111-116`): for each camera of `self.camera_reader.camera_dict`
and each `(full_cam_id, info)` it reports, set
`intrinsics[full_cam_id] = info["cameraMatrix"]`. -/
def build_intrinsics {Mat : Type} (camera_dict : List (List (String × IntrInfo Mat))) :
    List (String × Mat) :=
  camera_dict.foldl
    (fun intrinsics cam_intr_info =>
      cam_intr_info.foldl (fun intr p => dictInsert intr p.1 p.2.cameraMatrix) intrinsics)
    []

/-- The observation record assembled by `get_observation`.  The Python
`obs_dict` is one heterogeneous dict; its fixed keys become fields here,
with the camera frame payloads merged in by `obs_dict.update(camera_obs)`
kept in `camera_frames`. -/
structure ObsDict (Pose CT Img TS Mat Rest : Type) where
  robot_state : StateDict Pose Rest
  timestamp_robot_state : List (String × ℕ)
  timestamp_cameras : TS
  camera_frames : List (String × Img)
  camera_type : List (String × CT)
  camera_extrinsics : List (String × Pose)
  camera_intrinsics : List (String × Mat)

/-- Embedding of `FrankaEnv.get_observation` (`env.py:93`): reads robot
state through `get_state` (collaborator result `robot_get_robot_state`,
call duration `d`, entry clock `t0`), reads the cameras (collaborator
result `read_cameras`), deep-copies `camera_type_dict` (a value copy
here), computes corrected extrinsics from the state just read, and
flattens the per-camera intrinsics.  Returns the observation, the
(unmodified) environment state, and the clock. -/
def get_observation {Pose CT Img TS Mat Rest : Type} (env : EnvState Pose CT)
    (robot_get_robot_state : StateDict Pose Rest × List (String × ℕ))
    (d t0 : ℕ)
    (read_cameras : List (String × Img) × TS)
    (camera_dict : List (List (String × IntrInfo Mat)))
    (hand_camera_id : String)
    (change_pose_frame : Pose → Pose → Pose) :
    ObsDict Pose CT Img TS Mat Rest × EnvState Pose CT × ℕ :=
  let sdtd := get_state robot_get_robot_state d t0
  let state_dict := sdtd.1.1
  let timestamp_dict := sdtd.1.2
  let extrinsics :=
    get_camera_extrinsics hand_camera_id change_pose_frame env.calibration_dict
      state_dict.cartesian_position
  let intrinsics := build_intrinsics camera_dict
  ({ robot_state := state_dict,
     timestamp_robot_state := timestamp_dict,
     timestamp_cameras := read_cameras.2,
     camera_frames := read_cameras.1,
     camera_type := env.camera_type_dict,
     camera_extrinsics := extrinsics,
     camera_intrinsics := intrinsics },
   env, sdtd.2)

/-- Embedding of `FrankaEnv.set_action_space` (`env.py:120`): assert the
name is one of the four allowed ones, then assign `action_space`,
`check_action_range = "velocity" in action_space` and
`DoF = 7 if "cartesian" in action_space else 8`.  On a failed assert the
exception propagates before any assignment, so no new state is
produced. -/
def set_action_space {Pose CT : Type} (env : EnvState Pose CT) (s : String) :
    Except InvalidConfig (EnvState Pose CT) :=
  if s ∈ (["cartesian_position", "joint_position", "cartesian_velocity",
           "joint_velocity"] : List String) then
    Except.ok
      { env with
        action_space := s
        check_action_range := strContains "velocity" s
        DoF := if strContains "cartesian" s = true then 7 else 8 }
  else
    Except.error (InvalidConfig.invalidActionSpace s)

/-- Embedding of `FrankaEnv.set_gripper_action_space` (`env.py:127`):
stores the given value verbatim, with no validation and no failure
path. -/
def set_gripper_action_space {Pose CT : Type} (env : EnvState Pose CT) (s : String) :
    EnvState Pose CT :=
  { env with gripper_action_space := s }

/-- Embedding of `FrankaEnv.reload_calibration` (`env.py:130`): replaces
the whole stored calibration map with a freshly loaded one. -/
def reload_calibration {Pose CT : Type} (env : EnvState Pose CT)
    (load_calibration_info : List (String × Pose)) : EnvState Pose CT :=
  { env with calibration_dict := load_calibration_info }

/-! ### Bootstrap resolution (`eva/eva.py`, `init`) -/

/-- Which resolution strategies `init` attempted, in order. -/
inductive BootstrapStrategy : Type
  | remote_runner
  | remote_env
  | local_env
deriving DecidableEq

/-- A concrete error type for exercising `init`: transport-level
failures versus the `BootstrapError` the spec postulates (no such error
exists anywhere in the code). -/
inductive EvaError : Type
  | connectError
  | bootstrapError
deriving DecidableEq

/-- Embedding of `init` (`eva.py:7`).  The collaborators are the six
fallible operations the function composes: `load_runner()` plus the
remote runner handshake `runner.initialize(**vars(args))` (both inside
the outer `try`), `load_env()` plus the remote env handshake
`env.initialize(**vars(args))` (both inside the inner `try`),
`FrankaEnv()` (inside no `try`), and `Runner(env=env, **vars(args))`
(inside no `try`, applied to the env from either fallback path).  Both
`except:` clauses are bare and catch everything.  Returns the result and
the list of strategies attempted. -/
def init {R V Err : Type} (load_runner : Except Err R)
    (runner_handshake : R → Except Err Unit)
    (load_env : Except Err V)
    (env_handshake : V → Except Err Unit)
    (franka_env_new : Except Err V)
    (runner_new : V → Except Err R) :
    Except Err R × List BootstrapStrategy :=
  match load_runner.bind (fun r => (runner_handshake r).map (fun _ => r)) with
  | Except.ok runner => (Except.ok runner, [BootstrapStrategy.remote_runner])
  | Except.error _ =>
    match load_env.bind (fun e => (env_handshake e).map (fun _ => e)) with
    | Except.ok env =>
        (runner_new env, [BootstrapStrategy.remote_runner, BootstrapStrategy.remote_env])
    | Except.error _ =>
      match franka_env_new with
      | Except.ok env =>
          (runner_new env,
           [BootstrapStrategy.remote_runner, BootstrapStrategy.remote_env,
            BootstrapStrategy.local_env])
      | Except.error e =>
          (Except.error e,
           [BootstrapStrategy.remote_runner, BootstrapStrategy.remote_env,
            BootstrapStrategy.local_env])

/-- Concrete sample environment state (the constructor defaults of
`FrankaEnv.__init__` with an empty calibration map), used to
instantiate theorems at explicit inputs. -/
def sampleEnv : EnvState ℕ ℕ :=
  { action_space := "cartesian_velocity", check_action_range := true, DoF := 7,
    gripper_action_space := "velocity", calibration_dict := [], camera_type_dict := [] }

/-! ### Dictionary and string helper lemmas -/

theorem dictLookup_dictInsert {κ α : Type _} [DecidableEq κ]
    (m : List (κ × α)) (k k2 : κ) (v : α) :
    dictLookup (dictInsert m k v) k2 = if k2 = k then some v else dictLookup m k2 := by
  induction m with
  | nil => simp [dictInsert, dictLookup]
  | cons p rest ih =>
    obtain ⟨k1, v1⟩ := p
    by_cases h1 : k1 = k
    · subst h1
      by_cases h2 : k2 = k1 <;> simp [dictInsert, dictLookup, h2]
    · by_cases h2 : k2 = k1
      · subst h2
        simp [dictInsert, dictLookup, h1]
      · simp [dictInsert, dictLookup, h1, h2, ih]

theorem dictLookup_of_mem_keys {κ α : Type _} [DecidableEq κ]
    {m : List (κ × α)} {k : κ} (h : k ∈ m.map Prod.fst) :
    ∃ v, dictLookup m k = some v := by
  induction m with
  | nil => simp at h
  | cons p rest ih =>
    obtain ⟨k1, v1⟩ := p
    by_cases h2 : k = k1
    · exact ⟨v1, by simp [dictLookup, h2]⟩
    · have h3 : k ∈ rest.map Prod.fst := by
        simpa [h2] using h
      obtain ⟨v, hv⟩ := ih h3
      exact ⟨v, by simp [dictLookup, h2, hv]⟩

theorem ne_append_gripper_offset (k : String) : k ≠ k ++ "_gripper_offset" := by
  intro h
  have h2 := congrArg String.length h
  rw [String.length_append] at h2
  have h3 : ("_gripper_offset" : String).length = 15 := rfl
  omega

theorem append_gripper_offset_inj {a b : String}
    (h : a ++ "_gripper_offset" = b ++ "_gripper_offset") : a = b := by
  apply String.ext
  have h2 := congrArg String.data h
  rw [String.data_append, String.data_append] at h2
  exact List.append_cancel_right h2

/-! ### List maximum/minimum bridge lemmas -/

theorem maximum_le_coe_iff {l : List ℚ} {b : ℚ} :
    l.maximum ≤ (b : WithBot ℚ) ↔ ∀ x ∈ l, x ≤ b := by
  constructor
  · intro h x hx
    exact_mod_cast (List.le_maximum_of_mem' hx).trans h
  · intro h
    exact List.maximum_le_of_forall_le fun a ha => by exact_mod_cast h a ha

theorem coe_le_minimum_iff {l : List ℚ} {b : ℚ} :
    (b : WithTop ℚ) ≤ l.minimum ↔ ∀ x ∈ l, b ≤ x := by
  constructor
  · intro h x hx
    exact_mod_cast h.trans (List.minimum_le_of_mem' hx)
  · intro h
    exact List.le_minimum_of_forall_le fun a ha => by exact_mod_cast h a ha

/-- Shared success-path characterization of `step`: a well-sized action
that satisfies the range bound (whenever range checking is on) is
forwarded to the robot collaborator exactly once, with the current
spaces and non-blocking mode, and the collaborator's `action_info`
is returned unchanged. -/
theorem step_of_valid {Pose CT A : Type} (env : EnvState Pose CT)
    (robot : List ℚ → String → String → Bool → A) (action : List ℚ)
    (hlen : action.length = env.DoF)
    (hrange : env.check_action_range = true → ∀ x ∈ action, -1 ≤ x ∧ x ≤ 1) :
    step env robot action
      = (Except.ok (robot action env.action_space env.gripper_action_space false),
         [RobotCall.update_command action env.action_space env.gripper_action_space false]) := by
  unfold step
  rw [if_pos hlen, if_neg]
  · rfl
  · rintro ⟨hc, hnr⟩
    exact hnr
      ⟨maximum_le_coe_iff.mpr fun x hx => (hrange hc x hx).2,
       coe_le_minimum_iff.mpr fun x hx => (hrange hc x hx).1⟩

/-- Characterization of one loop iteration of `get_camera_extrinsics`
for a non-hand camera: it leaves the map unchanged. -/
theorem adjust_step_not_wrist {Pose : Type} (hand : String) (ch : Pose → Pose → Pose)
    (gp : Pose) (extr : List (String × Pose)) (k : String)
    (hw : strContains hand k = false) :
    adjust_step hand ch gp extr k = extr := by
  simp [adjust_step, hw]

/-- Degenerate iteration case: a hand camera whose key is absent from
the running map is left alone (unreachable when the fold starts from
the calibration map itself). -/
theorem adjust_step_wrist_none {Pose : Type} (hand : String) (ch : Pose → Pose → Pose)
    (gp : Pose) (extr : List (String × Pose)) (k : String)
    (hw : strContains hand k = true) (hl : dictLookup extr k = none) :
    adjust_step hand ch gp extr k = extr := by
  simp [adjust_step, hw, hl]

/-- Characterization of one loop iteration of `get_camera_extrinsics`
for a hand camera with current binding `v`: the map gains the binding
`k ++ "_gripper_offset" ↦ v` and the binding at `k` becomes the frame
change of `v` by the gripper pose. -/
theorem adjust_step_wrist {Pose : Type} (hand : String) (ch : Pose → Pose → Pose)
    (gp : Pose) (extr : List (String × Pose)) (k : String) (v : Pose)
    (hw : strContains hand k = true) (hl : dictLookup extr k = some v) :
    adjust_step hand ch gp extr k
      = dictInsert (dictInsert extr (k ++ "_gripper_offset") v) k (ch v gp) := by
  have hk : dictLookup (dictInsert extr (k ++ "_gripper_offset") v) k = some v := by
    rw [dictLookup_dictInsert, if_neg (ne_append_gripper_offset k)]
    exact hl
  simp [adjust_step, hw, hl, hk]

/-- Keys that no iteration of the `get_camera_extrinsics` loop writes to
keep their binding through the whole fold: the iteration for a hand
camera `k` writes only at `k` and `k ++ "_gripper_offset"`, and every
other iteration writes nothing. -/
theorem adjust_fold_lookup_eq {Pose : Type} (hand : String)
    (ch : Pose → Pose → Pose) (gp : Pose) (ks : List String)
    (extr : List (String × Pose)) (x : String)
    (hx : ∀ k ∈ ks, strContains hand k = true → x ≠ k ∧ x ≠ k ++ "_gripper_offset") :
    dictLookup (ks.foldl (adjust_step hand ch gp) extr) x = dictLookup extr x := by
  induction ks generalizing extr with
  | nil => rfl
  | cons k ks ih =>
    rw [List.foldl_cons, ih _ (fun k2 hk2 => hx k2 (List.mem_cons_of_mem _ hk2))]
    cases hw : strContains hand k with
    | false => rw [adjust_step_not_wrist _ _ _ _ _ hw]
    | true =>
      obtain ⟨hx1, hx2⟩ := hx k (List.mem_cons_self k ks) hw
      cases hl : dictLookup extr k with
      | none => rw [adjust_step_wrist_none _ _ _ _ _ hw hl]
      | some v =>
        rw [adjust_step_wrist _ _ _ _ _ _ hw hl,
            dictLookup_dictInsert, if_neg hx1, dictLookup_dictInsert, if_neg hx2]

/-! ### Claim theorems -/

/-- C5 (confirmed): for every valid action-space name the derived
configuration is the deterministic pure function of the (frame, mode)
pair given by the table — cartesian frame → DoF 7, joint frame → DoF 8,
velocity mode → range-checked, position mode → not. -/
theorem set_action_space_table {Pose CT : Type} (env : EnvState Pose CT) :
    set_action_space env "cartesian_position"
      = Except.ok { env with action_space := "cartesian_position",
                             check_action_range := false, DoF := 7 } ∧
    set_action_space env "joint_position"
      = Except.ok { env with action_space := "joint_position",
                             check_action_range := false, DoF := 8 } ∧
    set_action_space env "cartesian_velocity"
      = Except.ok { env with action_space := "cartesian_velocity",
                             check_action_range := true, DoF := 7 } ∧
    set_action_space env "joint_velocity"
      = Except.ok { env with action_space := "joint_velocity",
                             check_action_range := true, DoF := 8 } :=
  ⟨rfl, rfl, rfl, rfl⟩

/-- C6 (confirmed): configuring the action space with a name outside
the four allowed ones fails with `InvalidConfig`, and on failure no new
state is produced, so the previously active configuration
(`action_space`, `check_action_range`, `DoF`) is left entirely
unchanged; moreover every successful configuration replaces the three
derived fields together as one whole record, never half-updated. -/
theorem set_action_space_invalid {Pose CT : Type} (env : EnvState Pose CT) (s : String)
    (h : s ∉ (["cartesian_position", "joint_position", "cartesian_velocity",
               "joint_velocity"] : List String)) :
    set_action_space env s = Except.error (InvalidConfig.invalidActionSpace s) ∧
    ∀ s2 env2, set_action_space env s2 = Except.ok env2 →
      env2 = { env with action_space := s2,
                        check_action_range := strContains "velocity" s2,
                        DoF := if strContains "cartesian" s2 = true then 7 else 8 } := by
  constructor
  · unfold set_action_space
    rw [if_neg h]
  · intro s2 env2 h2
    unfold set_action_space at h2
    by_cases hm : s2 ∈ (["cartesian_position", "joint_position", "cartesian_velocity",
                         "joint_velocity"] : List String)
    · rw [if_pos hm] at h2
      injection h2 with h3
      exact h3.symm
    · rw [if_neg hm] at h2
      exact Except.noConfusion h2

/-- Witness for `set_action_space_invalid` at a concrete state and the
invalid name `"foo"`. -/
theorem set_action_space_invalid_witness :
    set_action_space sampleEnv "foo"
      = Except.error (InvalidConfig.invalidActionSpace "foo") :=
  (set_action_space_invalid sampleEnv "foo" (by decide)).1

/-- C8 (confirmed): `reset` issues exactly two robot commands, in
order — a blocking gripper command to the fully-open value `0`, then a
blocking joint-position command to the fixed home configuration
`reset_joints` with no cartesian-noise perturbation — and both commands
are blocking, so the method returns only after both complete. -/
theorem reset_commands :
    reset.length = 2 ∧
    reset.get? 0 = some (RobotCall.update_gripper 0 false true) ∧
    reset.get? 1 = some (RobotCall.update_joints reset_joints false true none) ∧
    ∀ c ∈ reset, c.isBlocking = true := by
  refine ⟨rfl, rfl, rfl, ?_⟩
  intro c hc
  simp only [reset, List.mem_cons, List.not_mem_nil, or_false] at hc
  rcases hc with h | h <;> subst h <;> rfl

/-- C9 (confirmed): `get_observation` (including its extrinsics
computation) leaves the environment's stored state unchanged — the
stored calibration map and the canonical `camera_type` map are
identical before and after the call — and the `camera_type` mapping
placed in the observation is a deep-copied value equal to the stored
one, so the caller receives copies rather than the stored maps
themselves. -/
theorem get_observation_preserves_state {Pose CT Img TS Mat Rest : Type}
    (env : EnvState Pose CT)
    (robot_get_robot_state : StateDict Pose Rest × List (String × ℕ)) (d t0 : ℕ)
    (read_cameras : List (String × Img) × TS)
    (camera_dict : List (List (String × IntrInfo Mat)))
    (hand_camera_id : String) (change_pose_frame : Pose → Pose → Pose) :
    (get_observation env robot_get_robot_state d t0 read_cameras camera_dict
        hand_camera_id change_pose_frame).2.1 = env ∧
    (get_observation env robot_get_robot_state d t0 read_cameras camera_dict
        hand_camera_id change_pose_frame).2.1.calibration_dict = env.calibration_dict ∧
    (get_observation env robot_get_robot_state d t0 read_cameras camera_dict
        hand_camera_id change_pose_frame).2.1.camera_type_dict = env.camera_type_dict ∧
    (get_observation env robot_get_robot_state d t0 read_cameras camera_dict
        hand_camera_id change_pose_frame).1.camera_type = env.camera_type_dict :=
  ⟨rfl, rfl, rfl, rfl⟩

/-- C1 (corrected): `get_observation` performs no completeness check and
has no failure path.  It always returns an observation whose
`camera_extrinsics` is computed solely from the stored calibration map
and the robot pose, and whose `camera_intrinsics` is the flattening of
the camera collaborator's intrinsics sources — both independent of
which camera-ids appear in the frame payloads.  A camera-id present in
the payloads therefore need not appear in either mapping, and no
`IncompleteObservation` error exists anywhere in the code. -/
theorem get_observation_no_completeness_check {Pose CT Img TS Mat Rest : Type}
    (env : EnvState Pose CT)
    (robot_get_robot_state : StateDict Pose Rest × List (String × ℕ)) (d t0 : ℕ)
    (read_cameras : List (String × Img) × TS)
    (camera_dict : List (List (String × IntrInfo Mat)))
    (hand_camera_id : String) (change_pose_frame : Pose → Pose → Pose) :
    (get_observation env robot_get_robot_state d t0 read_cameras camera_dict
        hand_camera_id change_pose_frame).1.camera_frames = read_cameras.1 ∧
    (get_observation env robot_get_robot_state d t0 read_cameras camera_dict
        hand_camera_id change_pose_frame).1.camera_extrinsics
      = get_camera_extrinsics hand_camera_id change_pose_frame env.calibration_dict
          robot_get_robot_state.1.cartesian_position ∧
    (get_observation env robot_get_robot_state d t0 read_cameras camera_dict
        hand_camera_id change_pose_frame).1.camera_intrinsics
      = build_intrinsics camera_dict :=
  ⟨rfl, rfl, rfl⟩

/-- C1 counterexample: a concrete `get_observation` call whose camera
collaborator reports a frame for camera-id `"B"` while neither the
calibration map nor any intrinsics source mentions `"B"`.  The call
returns an observation whose `camera_extrinsics` and
`camera_intrinsics` both lack the key `"B"` — a partial observation is
returned rather than failing with `IncompleteObservation`, so the claim
as stated is false on the code. -/
theorem get_observation_partial_counterexample :
    dictLookup ((@get_observation ℕ ℕ ℕ ℕ ℕ Unit sampleEnv (⟨0, ()⟩, []) 1 5 ([("B", 7)], 0) [] "hand"
        (fun a b => a + b)).1.camera_frames) "B" = some 7 ∧
    dictLookup ((@get_observation ℕ ℕ ℕ ℕ ℕ Unit sampleEnv (⟨0, ()⟩, []) 1 5 ([("B", 7)], 0) [] "hand"
        (fun a b => a + b)).1.camera_extrinsics) "B" = none ∧
    dictLookup ((@get_observation ℕ ℕ ℕ ℕ ℕ Unit sampleEnv (⟨0, ()⟩, []) 1 5 ([("B", 7)], 0) [] "hand"
        (fun a b => a + b)).1.camera_intrinsics) "B" = none :=
  ⟨rfl, rfl, rfl⟩

/-- C2 (corrected): `init` tries its three strategies in strict order
and returns the first that succeeds; a failure of the remote
orchestrator leg (connect or handshake) or of the remote environment
leg is caught and only means "try the next strategy", and when the
orchestrator service is reachable it is used and the later strategies
are never attempted.  However, when every strategy fails, `init` does
not produce a distinct `BootstrapError`: the raw error of the final,
uncaught local-construction step escalates to the caller unchanged. -/
theorem init_resolution_order {R V Err : Type} (load_runner : Except Err R)
    (runner_handshake : R → Except Err Unit) (load_env : Except Err V)
    (env_handshake : V → Except Err Unit) (franka_env_new : Except Err V)
    (runner_new : V → Except Err R) :
    (∀ r, load_runner.bind (fun x => (runner_handshake x).map (fun _ => x)) = Except.ok r →
      init load_runner runner_handshake load_env env_handshake franka_env_new runner_new
        = (Except.ok r, [BootstrapStrategy.remote_runner])) ∧
    (∀ e1 v, load_runner.bind (fun x => (runner_handshake x).map (fun _ => x)) = Except.error e1 →
      load_env.bind (fun x => (env_handshake x).map (fun _ => x)) = Except.ok v →
      init load_runner runner_handshake load_env env_handshake franka_env_new runner_new
        = (runner_new v, [BootstrapStrategy.remote_runner, BootstrapStrategy.remote_env])) ∧
    (∀ e1 e2 v, load_runner.bind (fun x => (runner_handshake x).map (fun _ => x)) = Except.error e1 →
      load_env.bind (fun x => (env_handshake x).map (fun _ => x)) = Except.error e2 →
      franka_env_new = Except.ok v →
      init load_runner runner_handshake load_env env_handshake franka_env_new runner_new
        = (runner_new v, [BootstrapStrategy.remote_runner, BootstrapStrategy.remote_env,
                          BootstrapStrategy.local_env])) ∧
    (∀ e1 e2 err, load_runner.bind (fun x => (runner_handshake x).map (fun _ => x)) = Except.error e1 →
      load_env.bind (fun x => (env_handshake x).map (fun _ => x)) = Except.error e2 →
      franka_env_new = Except.error err →
      init load_runner runner_handshake load_env env_handshake franka_env_new runner_new
        = (Except.error err, [BootstrapStrategy.remote_runner, BootstrapStrategy.remote_env,
                              BootstrapStrategy.local_env])) := by
  refine ⟨?_, ?_, ?_, ?_⟩
  · intro r h1
    unfold init
    rw [h1]
  · intro e1 v h1 h2
    unfold init
    rw [h1, h2]
  · intro e1 e2 v h1 h2 h3
    unfold init
    rw [h1, h2, h3]
  · intro e1 e2 err h1 h2 h3
    unfold init
    rw [h1, h2, h3]

/-- Witness for `init_resolution_order`: with both remote legs failing
and local construction succeeding, resolution attempts all three
strategies in order and succeeds with the local one. -/
theorem init_resolution_order_witness :
    init (R := Unit) (V := Unit) (Except.error EvaError.connectError)
        (fun _ => Except.ok ()) (Except.error EvaError.connectError)
        (fun _ => Except.ok ()) (Except.ok ()) (fun _ => Except.ok ())
      = (Except.ok (), [BootstrapStrategy.remote_runner, BootstrapStrategy.remote_env,
                        BootstrapStrategy.local_env]) :=
  (init_resolution_order (Except.error EvaError.connectError) (fun _ => Except.ok ())
      (Except.error EvaError.connectError) (fun _ => Except.ok ())
      (Except.ok ()) (fun _ => Except.ok ())).2.2.1
    EvaError.connectError EvaError.connectError () rfl rfl rfl

/-- C2 counterexample: with every strategy failing with a concrete
transport-level error, `init` surfaces that raw error itself; it is not
the distinct `BootstrapError` the claim says resolution fails with. -/
theorem init_all_fail_raw_error :
    (init (R := Unit) (V := Unit) (Except.error EvaError.connectError)
        (fun _ => Except.ok ()) (Except.error EvaError.connectError)
        (fun _ => Except.ok ()) (Except.error EvaError.connectError)
        (fun _ => Except.ok ())).1
      = Except.error EvaError.connectError ∧
    EvaError.connectError ≠ EvaError.bootstrapError :=
  ⟨rfl, by decide⟩

/-- C3 (confirmed): `step` fails with `ActionValidationError` exactly
when the action length differs from the configured `DoF` (the
length-mismatch sub-kind, carrying both lengths, distinguishable from
the range sub-kind) or when `check_action_range` holds and some element
lies outside `[-1, 1]`; on any such failure no call reaches the robot
collaborator, and on success the action is forwarded together with the
current `action_space` and `gripper_action_space` in non-blocking mode
exactly once and the collaborator's `action_info` is returned
unchanged.  The hypothesis `0 < DoF` records that `set_action_space`
only ever derives `DoF ∈ {7, 8}`, so the action vector is nonempty
whenever the length check passes. -/
theorem step_validation {Pose CT A : Type} (env : EnvState Pose CT)
    (robot : List ℚ → String → String → Bool → A) (action : List ℚ)
    (_hDoF : 0 < env.DoF) :
    (action.length ≠ env.DoF →
      step env robot action
        = (Except.error (ActionValidationError.lengthMismatch action.length env.DoF), [])) ∧
    (action.length = env.DoF → env.check_action_range = true →
      (∃ x ∈ action, x < -1 ∨ 1 < x) →
      step env robot action = (Except.error ActionValidationError.rangeViolation, [])) ∧
    (action.length = env.DoF →
      (env.check_action_range = true → ∀ x ∈ action, -1 ≤ x ∧ x ≤ 1) →
      step env robot action
        = (Except.ok (robot action env.action_space env.gripper_action_space false),
           [RobotCall.update_command action env.action_space env.gripper_action_space false])) := by
  refine ⟨?_, ?_, ?_⟩
  · intro hne
    unfold step
    rw [if_neg hne]
  · intro hlen hc hex
    unfold step
    rw [if_pos hlen, if_pos]
    refine ⟨hc, ?_⟩
    rintro ⟨hmax, hmin⟩
    obtain ⟨x, hx, hout⟩ := hex
    rcases hout with h | h
    · have h2 := coe_le_minimum_iff.mp hmin x hx
      linarith
    · have h2 := maximum_le_coe_iff.mp hmax x hx
      linarith
  · intro hlen hr
    exact step_of_valid env robot action hlen hr

/-- Witness for `step_validation`: the all-zero 7-vector under the
default cartesian-velocity configuration is forwarded exactly once,
non-blocking, and the collaborator's answer is passed through. -/
theorem step_validation_witness :
    step sampleEnv (fun _ _ _ _ => (42 : ℕ)) [0, 0, 0, 0, 0, 0, 0]
      = (Except.ok 42, [RobotCall.update_command [0, 0, 0, 0, 0, 0, 0]
          "cartesian_velocity" "velocity" false]) :=
  (step_validation sampleEnv (fun _ _ _ _ => (42 : ℕ)) [0, 0, 0, 0, 0, 0, 0]
      (by decide)).2.2 rfl (fun _ => by decide)

/-- C7 (confirmed): `get_state` records `read_start` as the clock value
before the robot-state call and `read_end` as the clock value after it
returns (so `read_start ≤ read_end`); the timestamp entries the
collaborator itself reports under any other key are merged into the
returned record rather than overwritten; and `get_observation` stores
that record as the observation's robot-state timestamp while the camera
collaborator's capture timestamps are stored separately under the
cameras timestamp field. -/
theorem get_state_timestamps {Pose CT Img TS Mat Rest : Type} (env : EnvState Pose CT)
    (robot_get_robot_state : StateDict Pose Rest × List (String × ℕ)) (d t0 : ℕ)
    (read_cameras : List (String × Img) × TS)
    (camera_dict : List (List (String × IntrInfo Mat)))
    (hand_camera_id : String) (change_pose_frame : Pose → Pose → Pose) :
    dictLookup (get_state robot_get_robot_state d t0).1.2 "read_start" = some t0 ∧
    dictLookup (get_state robot_get_robot_state d t0).1.2 "read_end" = some (t0 + d) ∧
    t0 ≤ t0 + d ∧
    (∀ k, k ≠ "read_start" → k ≠ "read_end" →
      dictLookup (get_state robot_get_robot_state d t0).1.2 k
        = dictLookup robot_get_robot_state.2 k) ∧
    (get_observation env robot_get_robot_state d t0 read_cameras camera_dict
        hand_camera_id change_pose_frame).1.timestamp_robot_state
      = (get_state robot_get_robot_state d t0).1.2 ∧
    (get_observation env robot_get_robot_state d t0 read_cameras camera_dict
        hand_camera_id change_pose_frame).1.timestamp_cameras = read_cameras.2 := by
  have hts : (get_state robot_get_robot_state d t0).1.2
      = dictInsert (dictInsert robot_get_robot_state.2 "read_start" t0) "read_end" (t0 + d) :=
    rfl
  refine ⟨?_, ?_, Nat.le_add_right t0 d, ?_, rfl, rfl⟩
  · rw [hts, dictLookup_dictInsert, if_neg (by decide : ¬("read_start" = "read_end")),
        dictLookup_dictInsert, if_pos rfl]
  · rw [hts, dictLookup_dictInsert, if_pos rfl]
  · intro k h1 h2
    rw [hts, dictLookup_dictInsert, if_neg h2, dictLookup_dictInsert, if_neg h1]

/-- Witness for `get_state_timestamps`: a collaborator-reported entry
under key `"frame"` survives the merge, with `read_start`/`read_end`
bracketing a 2 ms robot-state read begun at clock 10. -/
theorem get_state_timestamps_witness :
    dictLookup (@get_state ℕ Unit (⟨0, ()⟩, [("frame", 3)]) 2 10).1.2
        "frame" = some 3 ∧
    dictLookup (@get_state ℕ Unit (⟨0, ()⟩, [("frame", 3)]) 2 10).1.2
        "read_start" = some 10 ∧
    dictLookup (@get_state ℕ Unit (⟨0, ()⟩, [("frame", 3)]) 2 10).1.2
        "read_end" = some 12 := by
  have h := @get_state_timestamps ℕ ℕ ℕ ℕ ℕ Unit sampleEnv
      (⟨0, ()⟩, [("frame", 3)]) 2 10 ([], 0) [] "hand" (fun a b => a + b)
  exact ⟨h.2.2.2.1 "frame" (by decide) (by decide), h.1, h.2.1⟩

/-- C10 (confirmed): `set_gripper_action_space` performs no validation —
it is total, so for every input value (including values outside
{position, velocity}) it succeeds, stores the given value verbatim as
the active `gripper_action_space`, leaves every other field unchanged,
and `step` then forwards the stored value to the robot collaborator
unchecked. -/
theorem set_gripper_action_space_unchecked {Pose CT A : Type} (env : EnvState Pose CT)
    (g : String) (robot : List ℚ → String → String → Bool → A) (action : List ℚ)
    (hlen : action.length = env.DoF)
    (hrange : env.check_action_range = true → ∀ x ∈ action, -1 ≤ x ∧ x ≤ 1) :
    (set_gripper_action_space env g).gripper_action_space = g ∧
    (set_gripper_action_space env g).action_space = env.action_space ∧
    (set_gripper_action_space env g).check_action_range = env.check_action_range ∧
    (set_gripper_action_space env g).DoF = env.DoF ∧
    (set_gripper_action_space env g).calibration_dict = env.calibration_dict ∧
    (set_gripper_action_space env g).camera_type_dict = env.camera_type_dict ∧
    step (set_gripper_action_space env g) robot action
      = (Except.ok (robot action env.action_space g false),
         [RobotCall.update_command action env.action_space g false]) := by
  refine ⟨rfl, rfl, rfl, rfl, rfl, rfl, ?_⟩
  exact step_of_valid (set_gripper_action_space env g) robot action hlen hrange

/-- Witness for `set_gripper_action_space_unchecked`: the out-of-domain
value `"banana"` is stored verbatim and forwarded to the robot
collaborator by `step`. -/
theorem set_gripper_action_space_unchecked_witness :
    (set_gripper_action_space sampleEnv "banana").gripper_action_space = "banana" ∧
    step (set_gripper_action_space sampleEnv "banana") (fun _ _ _ _ => (0 : ℕ))
        [0, 0, 0, 0, 0, 0, 0]
      = (Except.ok 0, [RobotCall.update_command [0, 0, 0, 0, 0, 0, 0]
          "cartesian_velocity" "banana" false]) := by
  have h := set_gripper_action_space_unchecked (A := ℕ) sampleEnv "banana"
      (fun _ _ _ _ => 0) [0, 0, 0, 0, 0, 0, 0] rfl (fun _ => by decide)
  exact ⟨h.1, h.2.2.2.2.2.2⟩

/-- C4 (corrected): provided the calibration keys are unique (a Python
dict invariant) and no hand camera-id `k` in the map has its derived
name `k ++ "_gripper_offset"` also present as a key, the computed
extrinsics map contains, for every camera-id classified as a hand/wrist
camera (the hand-camera tag occurs in the id), the original calibration
pose under `<id>_gripper_offset` and the frame change of that pose by
the current end-effector pose under `<id>`, while every non-wrist
camera-id keeps its raw calibration pose unchanged.  Without that
proviso a later loop iteration can overwrite the preserved offset
entry, as `get_camera_extrinsics_overwrite_counterexample` shows. -/
theorem get_camera_extrinsics_spec {Pose : Type} (hand : String)
    (ch : Pose → Pose → Pose) (calib : List (String × Pose)) (gp : Pose)
    (hnd : (calib.map Prod.fst).Nodup)
    (hsuf : ∀ k ∈ calib.map Prod.fst, strContains hand k = true →
      (k ++ "_gripper_offset") ∉ calib.map Prod.fst) :
    ∀ cid ∈ calib.map Prod.fst,
      (strContains hand cid = true →
        dictLookup (get_camera_extrinsics hand ch calib gp) (cid ++ "_gripper_offset")
          = dictLookup calib cid ∧
        dictLookup (get_camera_extrinsics hand ch calib gp) cid
          = Option.map (fun p => ch p gp) (dictLookup calib cid)) ∧
      (strContains hand cid = false →
        dictLookup (get_camera_extrinsics hand ch calib gp) cid = dictLookup calib cid) := by
  intro cid hcid
  obtain ⟨l1, l2, hkeys⟩ := List.append_of_mem hcid
  have hmem1 : ∀ k ∈ l1, k ∈ calib.map Prod.fst := by
    intro k hk
    rw [hkeys]
    exact List.mem_append_left _ hk
  have hmem2 : ∀ k ∈ l2, k ∈ calib.map Prod.fst := by
    intro k hk
    rw [hkeys]
    exact List.mem_append_right _ (List.mem_cons_of_mem _ hk)
  have hnd2 : (l1 ++ cid :: l2).Nodup := hkeys ▸ hnd
  rw [List.nodup_append] at hnd2
  have hcid_not_l1 : cid ∉ l1 := fun h => hnd2.2.2 h (List.mem_cons_self cid l2)
  have hcid_not_l2 : cid ∉ l2 := (List.nodup_cons.mp hnd2.2.1).1
  have hfold : get_camera_extrinsics hand ch calib gp
      = l2.foldl (adjust_step hand ch gp)
          (adjust_step hand ch gp (l1.foldl (adjust_step hand ch gp) calib) cid) := by
    unfold get_camera_extrinsics
    rw [hkeys, List.foldl_append, List.foldl_cons]
  have hpre : dictLookup (l1.foldl (adjust_step hand ch gp) calib) cid
      = dictLookup calib cid := by
    apply adjust_fold_lookup_eq
    intro k hk hwk
    constructor
    · intro h
      exact hcid_not_l1 (h ▸ hk)
    · intro h
      exact hsuf k (hmem1 k hk) hwk (h ▸ hcid)
  constructor
  · intro hw
    obtain ⟨v, hv⟩ := dictLookup_of_mem_keys hcid
    have hpv : dictLookup (l1.foldl (adjust_step hand ch gp) calib) cid = some v :=
      hpre.trans hv
    have hx : ∀ k ∈ l2, strContains hand k = true →
        (cid ≠ k ∧ cid ≠ k ++ "_gripper_offset") ∧
        (cid ++ "_gripper_offset" ≠ k ∧
         cid ++ "_gripper_offset" ≠ k ++ "_gripper_offset") := by
      intro k hk hwk
      refine ⟨⟨?_, ?_⟩, ?_, ?_⟩
      · intro h
        exact hcid_not_l2 (h ▸ hk)
      · intro h
        exact hsuf k (hmem2 k hk) hwk (h ▸ hcid)
      · intro h
        exact hsuf cid hcid hw (h ▸ hmem2 k hk)
      · intro h
        exact hcid_not_l2 (append_gripper_offset_inj h ▸ hk)
    rw [hfold, adjust_step_wrist _ _ _ _ _ _ hw hpv]
    constructor
    · rw [adjust_fold_lookup_eq _ _ _ _ _ _ (fun k hk hwk => (hx k hk hwk).2),
          dictLookup_dictInsert,
          if_neg (fun h => ne_append_gripper_offset cid h.symm),
          dictLookup_dictInsert, if_pos rfl]
      exact hv.symm
    · rw [adjust_fold_lookup_eq _ _ _ _ _ _ (fun k hk hwk => (hx k hk hwk).1),
          dictLookup_dictInsert, if_pos rfl, hv]
      rfl
  · intro hw
    have hx2 : ∀ k ∈ l2, strContains hand k = true →
        cid ≠ k ∧ cid ≠ k ++ "_gripper_offset" := by
      intro k hk hwk
      constructor
      · intro h
        exact hcid_not_l2 (h ▸ hk)
      · intro h
        exact hsuf k (hmem2 k hk) hwk (h ▸ hcid)
    rw [hfold, adjust_step_not_wrist _ _ _ _ _ hw,
        adjust_fold_lookup_eq _ _ _ _ _ _ hx2]
    exact hpre

/-- Witness for `get_camera_extrinsics_spec`: with hand tag `"hand"`,
calibration map `{"hand_cam" ↦ 3, "side" ↦ 5}` and end-effector pose
`10` under the composition `fun a b => a + b`, the wrist camera gets
offset entry `3` preserved and corrected pose `13`, and the non-wrist
camera keeps its raw pose `5`. -/
theorem get_camera_extrinsics_spec_witness :
    dictLookup (get_camera_extrinsics "hand" (fun a b : ℕ => a + b)
        [("hand_cam", 3), ("side", 5)] 10) "hand_cam_gripper_offset" = some 3 ∧
    dictLookup (get_camera_extrinsics "hand" (fun a b : ℕ => a + b)
        [("hand_cam", 3), ("side", 5)] 10) "hand_cam" = some 13 ∧
    dictLookup (get_camera_extrinsics "hand" (fun a b : ℕ => a + b)
        [("hand_cam", 3), ("side", 5)] 10) "side" = some 5 := by
  have h := get_camera_extrinsics_spec "hand" (fun a b : ℕ => a + b)
      [("hand_cam", 3), ("side", 5)] 10 (by decide) (by decide)
  refine ⟨?_, ?_, ?_⟩
  · exact (((h "hand_cam" (by decide)).1 (by decide)).1).trans (by decide)
  · exact (((h "hand_cam" (by decide)).1 (by decide)).2).trans (by decide)
  · exact ((h "side" (by decide)).2 (by decide)).trans (by decide)

/-- C4 counterexample: with hand tag `"hand"` and calibration map
`{"hand" ↦ 1, "hand_gripper_offset" ↦ 2}` — a map in which a wrist
camera-id's derived offset name is itself a calibration key — the loop
iteration for `"hand"` overwrites the calibration entry at
`"hand_gripper_offset"`, so the computed extrinsics hold the composed
pose `110 = change_pose_frame 1 10` there instead of the original
calibration pose `1` of camera `"hand"` that the claim requires to be
preserved under `<id>_gripper_offset`. -/
theorem get_camera_extrinsics_overwrite_counterexample :
    dictLookup (get_camera_extrinsics "hand" (fun a b : ℕ => a * 100 + b)
        [("hand", 1), ("hand_gripper_offset", 2)] 10) "hand_gripper_offset"
      = some 110 ∧
    dictLookup [(("hand" : String), (1 : ℕ)), ("hand_gripper_offset", 2)] "hand" = some 1 ∧
    (110 : ℕ) ≠ 1 :=
  ⟨by decide, by decide, by decide⟩

end Eva
